import Mathlib

/-!
Shallow embedding of the risk-gated signal admission pipeline of the
`caktykbot` repository (`src/risk/`): heat monitor, position sizer,
sector guard, correlation guard, circuit breaker and the orchestrating
`RiskValidator.validate`, together with proofs of the specification
claims about them.

Numbers from the Python source (floats and ints) are modelled as `ℚ`
and `ℤ`.  Python `int(x)` (truncation toward zero) is `pyInt`, and
Python's integer floor division `//` is `pyFloorDiv`.
-/

namespace Caktyk

/-- Python `int(x)` on a rational: truncation toward zero. -/
def pyInt (q : ℚ) : ℤ := if q < 0 then ⌈q⌉ else ⌊q⌋

/-- Python integer floor division `n // d`. -/
def pyFloorDiv (n d : ℤ) : ℤ := ⌊(n : ℚ) / (d : ℚ)⌋

/-! ### Data model -/

/-- Trigger types for the circuit breaker (`db/schemas.py`,
`CircuitBreakerTriggerType`). -/
inductive TriggerType where
  | drawdown10pct
  | consecutiveLoss5
deriving DecidableEq, Repr

/-- Verdict override values used by `RiskValidationResult`
(`"WAIT"` / `"SUSPENDED"`). -/
inductive Verdict where
  | wait
  | suspended
deriving DecidableEq, Repr

/-- Heat monitor status (`"safe"` / `"warning"` / `"limit"`). -/
inductive HeatState where
  | safe
  | warning
  | limit
deriving DecidableEq, Repr

/-- Circuit breaker messages (the formatted strings of
`circuit_breaker.py`, carrying their payloads). -/
inductive CBMsg where
  | inactive
  | suspendedUntil (u : ℤ)
  | activated (t : TriggerType) (value : ℚ) (until_ : ℤ)
deriving DecidableEq, Repr

/-- Non-blocking warning strings accumulated by the pipeline, carrying
the values interpolated into the source's format strings. -/
inductive Warning where
  | riskReduced (r : ℚ)
  | heatHigh (heat limit : ℚ)
  | cashReserveLow (pct target : ℚ)
  | slTooWide (dist : ℚ)
  | exposureLimit (exposure limit : ℚ)
  | highCorrelation (corr limit : ℚ)
  | cbMessage (m : CBMsg)
deriving DecidableEq, Repr

/-- Block reasons attached to rejecting results, carrying the values
interpolated into the source's format strings. -/
inductive BlockReason where
  | cbActive (m : CBMsg)
  | heatLimit (h : ℚ)
  | sectorLimit (count : ℕ) (sector : String)
  | sizingError (e : String)
  | heatProjected (h : ℚ)
deriving DecidableEq, Repr

/-- Model of the `RiskValidationResult` dataclass (`risk_validator.py` lines 22-31). -/
structure RiskValidationResult where
  passed : Bool
  verdict_override : Option Verdict := none
  lot_size : Option ℤ := none
  exposure_pct : Option ℚ := none
  heat_before : ℚ := 0
  heat_after : ℚ := 0
  warnings : List Warning := []
  block_reason : Option BlockReason := none
deriving DecidableEq, Repr

/-- An open trade dict as read by the heat monitor and the sector guard. -/
structure OpenTrade where
  symbol : String
  risk_percent : ℚ
  qty : ℚ
  qty_remaining : Option ℚ := none
  entry_price : ℚ
deriving DecidableEq, Repr

/-- A closed trade dict as read by the circuit breaker: `exit_date`
(a timestamp, `none` when the trade has no exit date) and `pnl_rupiah`. -/
structure ClosedTrade where
  exit_date : Option ℤ
  pnl_rupiah : ℚ
deriving DecidableEq, Repr

/-- The trading signal dict fields used by `validate`. -/
structure Signal where
  symbol : String
  entry_price : ℚ
  sl_price : ℚ
deriving DecidableEq, Repr

/-- Model of the `PortfolioConfig` fields used by `validate` (`db/schemas.py`). -/
structure PortfolioConfig where
  total_capital : ℚ
  risk_per_trade : ℚ
  max_heat : ℚ
  max_exposure_pct : ℚ
  cash_reserve_target : ℚ
deriving DecidableEq, Repr

/-- An active circuit-breaker suspension record
(`CircuitBreakerEvent` of `db/schemas.py`; `trigger_type` and
`risk_override` are mandatory fields there, `suspended_until` is read
with `.get` and guarded against `None` in `circuit_breaker.py`). -/
structure ActiveSuspension where
  suspended_until : Option ℤ
  trigger_type : TriggerType
  risk_override : ℚ
deriving DecidableEq, Repr

/-! ### Constants (`risk/constants.py`) -/

def MAX_PORTFOLIO_HEAT : ℚ := 8/100
def HEAT_WARNING_LEVEL : ℚ := 6/100
def MAX_EXPOSURE_PER_STOCK : ℚ := 25/100
def MAX_SMALL_CAP_EXPOSURE : ℚ := 15/100
def MIN_CASH_RESERVE : ℚ := 30/100
def MAX_STOCKS_PER_SECTOR : ℕ := 2
def CORRELATION_THRESHOLD : ℚ := 7/10
def CB_DRAWDOWN_TRIGGER : ℚ := 10/100
def CB_CONSECUTIVE_LOSS_TRIGGER : ℕ := 5
def CB_DRAWDOWN_SUSPEND_DAYS : ℤ := 7
def CB_LOSS_SUSPEND_DAYS : ℤ := 3
def CB_REDUCED_RISK : ℚ := 25/10000

/-! ### Heat monitor (`risk/heat_monitor.py`) -/

/-- One entry of the `positions` list built by `calculate_portfolio_heat`. -/
structure HeatPosition where
  symbol : String
  risk : ℚ
  exposure : ℚ
deriving DecidableEq, Repr

/-- Return value of `calculate_portfolio_heat`. -/
structure HeatStatus where
  current_heat : ℚ
  max_heat : ℚ
  available_heat : ℚ
  status : HeatState
  positions : List HeatPosition
  total_exposure : ℚ
  cash_reserve_pct : ℚ
  cash_reserve_ok : Bool
deriving DecidableEq, Repr

/-- The quantity used for a trade's exposure:
`trade.get("qty_remaining", trade.get("qty", 0))`. -/
def tradeQty (t : OpenTrade) : ℚ := t.qty_remaining.getD t.qty

/-- Embedding of `calculate_portfolio_heat` (`heat_monitor.py` lines 12-72). -/
def calculate_portfolio_heat (open_trades : List OpenTrade)
    (total_capital : ℚ) (max_heat_limit : ℚ) : HeatStatus :=
  let current_heat := (open_trades.map (·.risk_percent)).sum
  let total_exposure := (open_trades.map (fun t => tradeQty t * t.entry_price)).sum
  let positions := open_trades.map (fun t =>
    { symbol := t.symbol, risk := t.risk_percent,
      exposure := tradeQty t * t.entry_price : HeatPosition })
  let cash_used := total_exposure
  let cash_reserve := total_capital - cash_used
  let cash_reserve_pct := if 0 < total_capital then cash_reserve / total_capital else 0
  let status :=
    if max_heat_limit ≤ current_heat then HeatState.limit
    else if HEAT_WARNING_LEVEL ≤ current_heat then HeatState.warning
    else HeatState.safe
  { current_heat := current_heat
    max_heat := max_heat_limit
    available_heat := max 0 (max_heat_limit - current_heat)
    status := status
    positions := positions
    total_exposure := total_exposure
    cash_reserve_pct := cash_reserve_pct
    cash_reserve_ok := MIN_CASH_RESERVE ≤ cash_reserve_pct }

/-- Return value of `project_heat_with_new_trade`. -/
structure HeatProjection where
  projected_heat : ℚ
  would_exceed : Bool
  message : Option ℚ
deriving DecidableEq, Repr

/-- Embedding of `project_heat_with_new_trade` (`heat_monitor.py` lines 74-97). -/
def project_heat_with_new_trade (current_heat new_trade_risk : ℚ)
    (max_heat_limit : ℚ) : HeatProjection :=
  let projected_heat := current_heat + new_trade_risk
  let would_exceed := max_heat_limit < projected_heat
  { projected_heat := projected_heat
    would_exceed := would_exceed
    message := if would_exceed then some projected_heat else none }

/-! ### Position sizer (`risk/position_sizer.py`) -/

/-- Return value of `calculate_position_size` on success. -/
structure SizingResult where
  risk_amount : ℚ
  sl_distance : ℚ
  sl_distance_pct : ℚ
  shares : ℤ
  lots : ℤ
  exposure_rupiah : ℚ
  exposure_pct : ℚ
  warnings : List Warning
  max_exposure_limit : ℚ
  is_small_cap : Bool
deriving DecidableEq, Repr

instance : DecidableEq (Except String SizingResult) := fun a b =>
  match a, b with
  | .ok x, .ok y => decidable_of_iff (x = y) (by simp)
  | .error x, .error y => decidable_of_iff (x = y) (by simp)
  | .ok _, .error _ => isFalse (by simp)
  | .error _, .ok _ => isFalse (by simp)

/-- Embedding of `calculate_position_size` (`position_sizer.py` lines 15-98).  The
error dictionaries are modelled with `Except String`. -/
def calculate_position_size (capital risk_pct entry_price sl_price : ℚ)
    (is_small_cap : Bool) : Except String SizingResult :=
  if capital ≤ 0 then .error "Capital must be > 0"
  else if entry_price ≤ 0 ∨ sl_price ≤ 0 then .error "Prices must be > 0"
  else if entry_price ≤ sl_price then .error "SL must be below Entry for Long positions"
  else
    let risk_amount := capital * risk_pct
    let sl_distance := entry_price - sl_price
    let sl_distance_pct := sl_distance / entry_price
    let warnings := if 15/100 < sl_distance_pct then [Warning.slTooWide sl_distance_pct] else []
    let raw_shares := pyInt (risk_amount / sl_distance)
    let lots := pyFloorDiv raw_shares 100
    let shares := lots * 100
    let exposure_rupiah := (shares : ℚ) * entry_price
    let exposure_pct := exposure_rupiah / capital
    let max_exposure_limit := if is_small_cap then MAX_SMALL_CAP_EXPOSURE else MAX_EXPOSURE_PER_STOCK
    if max_exposure_limit < exposure_pct then
      let max_allowed_rupiah := capital * max_exposure_limit
      let max_allowed_shares := pyInt (max_allowed_rupiah / entry_price)
      let lots2 := pyFloorDiv max_allowed_shares 100
      let shares2 := lots2 * 100
      let exposure_rupiah2 := (shares2 : ℚ) * entry_price
      let exposure_pct2 := exposure_rupiah2 / capital
      .ok { risk_amount := risk_amount
            sl_distance := sl_distance
            sl_distance_pct := sl_distance_pct
            shares := shares2
            lots := lots2
            exposure_rupiah := exposure_rupiah2
            exposure_pct := exposure_pct2
            warnings := warnings ++ [Warning.exposureLimit exposure_pct2 max_exposure_limit]
            max_exposure_limit := max_exposure_limit
            is_small_cap := is_small_cap }
    else
      .ok { risk_amount := risk_amount
            sl_distance := sl_distance
            sl_distance_pct := sl_distance_pct
            shares := shares
            lots := lots
            exposure_rupiah := exposure_rupiah
            exposure_pct := exposure_pct
            warnings := warnings
            max_exposure_limit := max_exposure_limit
            is_small_cap := is_small_cap }

/-! ### Circuit breaker (`risk/circuit_breaker.py`)

The Python code reads the wall clock (`datetime.now`) and the start of
the current calendar month; both are passed in as explicit parameters
`now` and `monthStart` (timestamps in days, `ℤ`). -/

/-- Return value of `CircuitBreaker.check`.  A stored-suspension answer
carries no `suspended_until`/`trigger_value` key; those fields are
`none` there. -/
structure CBStatus where
  is_active : Bool
  trigger_type : Option TriggerType := none
  trigger_value : Option ℚ := none
  suspended_until : Option ℤ := none
  risk_override : Option ℚ := none
  message : CBMsg
deriving DecidableEq, Repr

/-- Embedding of `CircuitBreaker.calculate_monthly_drawdown` (`circuit_breaker.py`
lines 18-63). -/
def calculate_monthly_drawdown (trades : List ClosedTrade)
    (current_capital : ℚ) (monthStart : ℤ) : ℚ :=
  let monthly_trades := trades.filter (fun t =>
    match t.exit_date with
    | some d => monthStart ≤ d
    | none => false)
  let realized_pnl := (monthly_trades.map (·.pnl_rupiah)).sum
  let start_capital := current_capital - realized_pnl
  if start_capital ≤ 0 then 0
  else if realized_pnl < 0 then |realized_pnl| / start_capital
  else 0

/-- The inner loop of `count_consecutive_losses`: walk the (already
sorted) list counting `pnl < 0` until the first non-loss breaks it. -/
def lossStreak : List ClosedTrade → ℕ
  | [] => 0
  | t :: ts => if t.pnl_rupiah < 0 then lossStreak ts + 1 else 0

/-- Descending-by-exit-date order used by the circuit breaker;
`exit_date` is known to be present on the sorted trades. -/
def exitGE (a b : ClosedTrade) : Prop := b.exit_date.getD 0 ≤ a.exit_date.getD 0

instance : DecidableRel exitGE := fun a b => by unfold exitGE; infer_instance

instance : IsTotal ClosedTrade exitGE :=
  ⟨fun a b => le_total (b.exit_date.getD 0) (a.exit_date.getD 0)⟩

instance : IsTrans ClosedTrade exitGE :=
  ⟨fun _ _ _ h1 h2 => le_trans h2 h1⟩

/-- Embedding of `CircuitBreaker.count_consecutive_losses` (`circuit_breaker.py`
lines 65-84): keep only trades with an exit date, sort them by exit
date descending (Python's stable sort), count losses from the front. -/
def count_consecutive_losses (trades : List ClosedTrade) : ℕ :=
  lossStreak (List.insertionSort exitGE (trades.filter (·.exit_date.isSome)))

/-- Embedding of `CircuitBreaker.check` (`circuit_breaker.py` lines 86-147). -/
def circuit_breaker_check (closed_trades : List ClosedTrade)
    (current_capital : ℚ) (active_suspension : Option ActiveSuspension)
    (now monthStart : ℤ) : CBStatus :=
  let fallthrough : CBStatus :=
    let dd := calculate_monthly_drawdown closed_trades current_capital monthStart
    if CB_DRAWDOWN_TRIGGER ≤ dd then
      let until_ := now + CB_DRAWDOWN_SUSPEND_DAYS
      { is_active := true
        trigger_type := some .drawdown10pct
        trigger_value := some dd
        suspended_until := some until_
        risk_override := some CB_REDUCED_RISK
        message := .activated .drawdown10pct dd until_ }
    else
      let losses := count_consecutive_losses closed_trades
      if CB_CONSECUTIVE_LOSS_TRIGGER ≤ losses then
        let until_ := now + CB_LOSS_SUSPEND_DAYS
        { is_active := true
          trigger_type := some .consecutiveLoss5
          trigger_value := some (losses : ℚ)
          suspended_until := some until_
          risk_override := some CB_REDUCED_RISK
          message := .activated .consecutiveLoss5 (losses : ℚ) until_ }
      else
        { is_active := false, message := .inactive }
  match active_suspension with
  | some a =>
    match a.suspended_until with
    | some u =>
      if now < u then
        { is_active := true
          risk_override := some a.risk_override
          message := .suspendedUntil u
          trigger_type := some a.trigger_type }
      else fallthrough
    | none => fallthrough
  | none => fallthrough

/-! ### Correlation guard (`risk/correlation.py`)

A pandas return series is an association list from a (sorted, unique)
date index to an optional value (`none` = NaN).  Building the
two-column frame and calling `dropna` keeps exactly the index points
present in both series with both values non-NaN; the Pearson
computation itself is a pandas library routine and is passed in as the
function parameter `pearson`. -/

/-- A daily-return series: date index paired with an optional value. -/
abbrev Series := List (ℤ × Option ℚ)

/-- Model of `pd.DataFrame({...}).dropna()`: the aligned, NaN-free rows. -/
def alignSeries (stock ihsg : Series) : List (ℚ × ℚ) :=
  stock.filterMap (fun p =>
    match p.2, (ihsg.lookup p.1).join with
    | some a, some b => some (a, b)
    | _, _ => none)

/-- Embedding of `calculate_correlation` (`correlation.py` lines 10-42), with the
pandas Pearson routine abstracted as `pearson`. -/
def calculate_correlation (pearson : List (ℚ × ℚ) → ℚ)
    (stock_returns ihsg_returns : Series) (period : ℕ) : ℚ :=
  if stock_returns.length < period ∨ ihsg_returns.length < period then 0
  else
    let df := alignSeries stock_returns ihsg_returns
    if df.length < period then 0
    else pearson (df.drop (df.length - period))

/-- Embedding of `should_reduce_size_by_correlation` (`correlation.py` lines 44-54). -/
def should_reduce_size_by_correlation (correlation : ℚ) : Bool :=
  CORRELATION_THRESHOLD < correlation

/-! ### Sector guard (`risk/sector_mapper.py`)

The database of sector mappings is a function from symbol to an
optional `(sector, market_cap_category)` pair. -/

/-- Embedding of `get_sector_info` (`sector_mapper.py` lines 13-28). -/
def get_sector_info (symbol : String) (db : String → Option (String × String)) :
    String × String :=
  match db symbol with
  | some m => m
  | none => ("Other", "small")

/-- Return value of `check_sector_limit`. -/
structure SectorCheck where
  allowed : Bool
  count : ℕ
  maxPerSector : ℕ
  message : Option (ℕ × String)
deriving DecidableEq, Repr

/-- Embedding of `check_sector_limit` (`sector_mapper.py` lines 31-101). -/
def check_sector_limit (symbol sector : String) (open_trades : List OpenTrade)
    (db : String → Option (String × String)) : SectorCheck :=
  let search_symbols := (open_trades.filter (fun t => t.symbol ≠ symbol)).map (·.symbol)
  if search_symbols.isEmpty then
    { allowed := true, count := 0, maxPerSector := MAX_STOCKS_PER_SECTOR, message := none }
  else
    let current_count := open_trades.countP (fun t =>
      t.symbol ≠ symbol ∧
      ((db t.symbol).map Prod.fst).getD "Other" = sector ∧
      sector ≠ "Other")
    if MAX_STOCKS_PER_SECTOR ≤ current_count then
      { allowed := false, count := current_count, maxPerSector := MAX_STOCKS_PER_SECTOR,
        message := some (current_count, sector) }
    else
      { allowed := true, count := current_count, maxPerSector := MAX_STOCKS_PER_SECTOR,
        message := none }

/-! ### Risk validator orchestrator (`risk/risk_validator.py`) -/

/-- Embedding of `RiskValidator.validate` (`risk_validator.py` lines 39-249).
`pearson` abstracts the pandas correlation routine, `db` the sector
database, and `now`/`monthStart` the wall-clock reads of the circuit
breaker. -/
def validate (pearson : List (ℚ × ℚ) → ℚ)
    (db : String → Option (String × String))
    (signal : Signal) (open_trades : List OpenTrade)
    (portfolio_config : PortfolioConfig)
    (stock_returns ihsg_returns : Option Series)
    (active_cb_event : Option ActiveSuspension)
    (closed_trades : List ClosedTrade)
    (now monthStart : ℤ) : RiskValidationResult :=
  let symbol := signal.symbol
  let entry := signal.entry_price
  let sl := signal.sl_price
  let capital := portfolio_config.total_capital
  -- 1. Circuit Breaker Check (RR-010)
  let cb_status := circuit_breaker_check closed_trades capital active_cb_event now monthStart
  if cb_status.is_active ∧ cb_status.trigger_type.isSome then
    { passed := false
      verdict_override := some .suspended
      block_reason := some (.cbActive cb_status.message)
      warnings := [.cbMessage cb_status.message] }
  else
    let riskw : ℚ × List Warning :=
      if cb_status.is_active then
        match cb_status.risk_override with
        | some r =>
          if r ≠ 0 then (r, [Warning.riskReduced r])
          else (portfolio_config.risk_per_trade, [])
        | none => (portfolio_config.risk_per_trade, [])
      else (portfolio_config.risk_per_trade, [])
    let current_risk_per_trade := riskw.1
    let warnings1 := riskw.2
    -- 2. Portfolio Heat Check (RR-001)
    let heat_status := calculate_portfolio_heat open_trades capital portfolio_config.max_heat
    let heat_before := heat_status.current_heat
    if heat_status.status = .limit then
      { passed := false
        verdict_override := some .wait
        block_reason := some (.heatLimit heat_before)
        heat_before := heat_before }
    else
      let warnings2 := warnings1 ++
        (if heat_status.status = .warning
         then [Warning.heatHigh heat_before portfolio_config.max_heat] else [])
      -- 3. Cash Reserve Check (RR-006)
      let warnings3 := warnings2 ++
        (if ¬heat_status.cash_reserve_ok
         then [Warning.cashReserveLow heat_status.cash_reserve_pct
                 portfolio_config.cash_reserve_target]
         else [])
      -- 4. Sector Diversification (RR-005)
      let si := get_sector_info symbol db
      let sector := si.1
      let market_cap := si.2
      let sector_check := check_sector_limit symbol sector open_trades db
      if ¬sector_check.allowed then
        { passed := false
          verdict_override := some .wait
          block_reason := some (.sectorLimit sector_check.count sector)
          heat_before := heat_before }
      else
        -- 5. Position Sizing (RR-003)
        match calculate_position_size capital current_risk_per_trade entry sl
            (market_cap = "small") with
        | .error e =>
          { passed := false
            verdict_override := some .wait
            block_reason := some (.sizingError e)
            heat_before := heat_before }
        | .ok sizing =>
          let warnings4 := warnings3 ++ sizing.warnings
          -- 6. Correlation Filter (RR-007)
          let corrStep : ℚ × ℤ × ℤ × List Warning :=
            match stock_returns, ihsg_returns with
            | some sr, some ir =>
              let corr := calculate_correlation pearson sr ir 90
              if should_reduce_size_by_correlation corr then
                let reduced_limit := portfolio_config.max_exposure_pct * (1/2)
                if reduced_limit < sizing.exposure_pct then
                  let max_allowed_rupiah := capital * reduced_limit
                  let max_allowed_shares := pyInt (max_allowed_rupiah / entry)
                  let shares2 := pyFloorDiv max_allowed_shares 100 * 100
                  let lot_size2 := pyFloorDiv shares2 100
                  let exposure_rupiah2 := (shares2 : ℚ) * entry
                  (exposure_rupiah2 / capital, lot_size2, shares2,
                   warnings4 ++ [Warning.highCorrelation corr reduced_limit])
                else (sizing.exposure_pct, sizing.lots, sizing.shares, warnings4)
              else (sizing.exposure_pct, sizing.lots, sizing.shares, warnings4)
            | _, _ => (sizing.exposure_pct, sizing.lots, sizing.shares, warnings4)
          let exposure_pct := corrStep.1
          let lot_size := corrStep.2.1
          let shares := corrStep.2.2.1
          let warnings5 := corrStep.2.2.2
          -- 8. Projected Heat Check (RR-002)
          let actual_risk_rupiah := (shares : ℚ) * (entry - sl)
          let actual_risk_pct := actual_risk_rupiah / capital
          let heat_proj := project_heat_with_new_trade heat_before actual_risk_pct
            portfolio_config.max_heat
          if heat_proj.would_exceed then
            { passed := false
              verdict_override := some .wait
              block_reason := some (.heatProjected heat_proj.projected_heat)
              heat_before := heat_before
              heat_after := heat_proj.projected_heat }
          else
            { passed := true
              lot_size := some lot_size
              exposure_pct := some exposure_pct
              heat_before := heat_before
              heat_after := heat_proj.projected_heat
              warnings := warnings5 }

/-- The exposure cap the sizer applies for a candidate: the small-cap
cap when the sector lookup classifies the symbol as `"small"`, the
normal per-stock cap otherwise. -/
def sizerCap (db : String → Option (String × String)) (signal : Signal) : ℚ :=
  if (get_sector_info signal.symbol db).2 = "small"
  then MAX_SMALL_CAP_EXPOSURE else MAX_EXPOSURE_PER_STOCK

/-- Whether the correlation guard triggers for the given inputs. -/
def corrTriggered (pearson : List (ℚ × ℚ) → ℚ)
    (stock_returns ihsg_returns : Option Series) : Bool :=
  match stock_returns, ihsg_returns with
  | some sr, some ir =>
    should_reduce_size_by_correlation (calculate_correlation pearson sr ir 90)
  | _, _ => false

/-- The cap actually applied to a candidate's exposure: half the
configured max exposure when the correlation guard triggered, the
sizer's (small-)cap otherwise. -/
def appliedCap (pearson : List (ℚ × ℚ) → ℚ)
    (db : String → Option (String × String)) (signal : Signal)
    (portfolio_config : PortfolioConfig)
    (stock_returns ihsg_returns : Option Series) : ℚ :=
  if corrTriggered pearson stock_returns ihsg_returns
  then portfolio_config.max_exposure_pct * (1/2)
  else sizerCap db signal

/-! ## Helper lemmas -/

theorem pyInt_of_nonneg {q : ℚ} (h : 0 ≤ q) : pyInt q = ⌊q⌋ := by
  simp [pyInt, not_lt.mpr h]

theorem pyInt_nonneg {q : ℚ} (h : 0 ≤ q) : 0 ≤ pyInt q := by
  rw [pyInt_of_nonneg h]
  exact Int.floor_nonneg.mpr h

theorem pyInt_le {q : ℚ} (h : 0 ≤ q) : (pyInt q : ℚ) ≤ q := by
  rw [pyInt_of_nonneg h]
  exact Int.floor_le q

theorem pyFloorDiv_nonneg {n : ℤ} (h : 0 ≤ n) : 0 ≤ pyFloorDiv n 100 := by
  unfold pyFloorDiv
  apply Int.floor_nonneg.mpr
  positivity

theorem pyFloorDiv_mul_le (n : ℤ) : pyFloorDiv n 100 * 100 ≤ n := by
  unfold pyFloorDiv
  have h1 : ((⌊(n : ℚ) / (100 : ℚ)⌋ : ℚ)) ≤ (n : ℚ) / 100 := Int.floor_le _
  have h2 : ((⌊(n : ℚ) / (100 : ℚ)⌋ : ℚ)) * 100 ≤ (n : ℚ) := by
    rw [← le_div_iff₀ (by norm_num : (0:ℚ) < 100)]
    exact h1
  exact_mod_cast h2

/-- Shares recomputed from a cap: the rounded-down lot-multiple of
`capital * limit / entry` is non-negative and its exposure stays at or
below the cap. -/
theorem capShares_spec {capital limit entry : ℚ} (hc : 0 < capital)
    (he : 0 < entry) (hl : 0 ≤ limit) :
    0 ≤ pyFloorDiv (pyInt (capital * limit / entry)) 100 * 100 ∧
    ((pyFloorDiv (pyInt (capital * limit / entry)) 100 * 100 : ℤ) : ℚ) * entry / capital ≤ limit := by
  have hx : (0:ℚ) ≤ capital * limit / entry := by positivity
  have h1 : (pyFloorDiv (pyInt (capital * limit / entry)) 100 * 100 : ℤ) ≤
      pyInt (capital * limit / entry) := pyFloorDiv_mul_le _
  have h2 : ((pyFloorDiv (pyInt (capital * limit / entry)) 100 * 100 : ℤ) : ℚ) ≤
      capital * limit / entry := le_trans (by exact_mod_cast h1) (pyInt_le hx)
  refine ⟨mul_nonneg (pyFloorDiv_nonneg (pyInt_nonneg hx)) (by norm_num), ?_⟩
  rw [div_le_iff₀ hc]
  have h3 : ((pyFloorDiv (pyInt (capital * limit / entry)) 100 * 100 : ℤ) : ℚ) * entry ≤
      capital * limit / entry * entry :=
    mul_le_mul_of_nonneg_right h2 (le_of_lt he)
  rw [div_mul_cancel₀ _ (ne_of_gt he)] at h3
  linarith

/-- Everything a successful sizing guarantees: the input guards held,
shares are a non-negative lot multiple, and the exposure respects the
applied (small-)cap. -/
theorem sizing_ok_spec {capital risk entry sl : ℚ} {sc : Bool} {s : SizingResult}
    (hr : 0 ≤ risk)
    (h : calculate_position_size capital risk entry sl sc = .ok s) :
    0 < capital ∧ 0 < entry ∧ 0 < sl ∧ sl < entry ∧
    s.shares = s.lots * 100 ∧ 0 ≤ s.shares ∧
    s.exposure_pct = (s.shares : ℚ) * entry / capital ∧
    s.exposure_pct ≤ s.max_exposure_limit ∧
    s.max_exposure_limit = (if sc then MAX_SMALL_CAP_EXPOSURE else MAX_EXPOSURE_PER_STOCK) := by
  unfold calculate_position_size at h
  split at h
  · exact absurd h (by simp)
  · split at h
    · exact absurd h (by simp)
    · split at h
      · exact absurd h (by simp)
      · rename_i hc hps hse
        rw [not_le] at hc
        rw [not_or, not_le, not_le] at hps
        rw [not_le] at hse
        obtain ⟨hpe, hpsl⟩ := hps
        set L := (if sc then MAX_SMALL_CAP_EXPOSURE else MAX_EXPOSURE_PER_STOCK) with hL
        have hcap : (0:ℚ) < L := by
          rw [hL]; cases sc <;> norm_num [MAX_SMALL_CAP_EXPOSURE, MAX_EXPOSURE_PER_STOCK]
        have hspec := capShares_spec hc hpe (le_of_lt hcap)
        have hraw : (0:ℚ) ≤ capital * risk / (entry - sl) := by
          have : (0:ℚ) < entry - sl := by linarith
          positivity
        have hrawS : 0 ≤ pyFloorDiv (pyInt (capital * risk / (entry - sl))) 100 * 100 :=
          mul_nonneg (pyFloorDiv_nonneg (pyInt_nonneg hraw)) (by norm_num)
        dsimp only at h
        split at h
        · split at h <;>
            (injection h with h; subst h;
             exact ⟨hc, hpe, hpsl, hse, rfl, hspec.1, rfl, hspec.2, hL⟩)
        · rename_i hunder
          rw [not_lt] at hunder
          split at h <;>
            (injection h with h; subst h;
             exact ⟨hc, hpe, hpsl, hse, rfl, hrawS, rfl, hunder, hL⟩)

/-- Every `check` answer with `is_active = true` carries a trigger
type: both the stored-suspension path and the two freshly-fired
trigger paths set it, so the indicator cannot distinguish them. -/
theorem cb_active_trigger_isSome (closed_trades : List ClosedTrade)
    (current_capital : ℚ) (active_suspension : Option ActiveSuspension)
    (now monthStart : ℤ)
    (h : (circuit_breaker_check closed_trades current_capital active_suspension
      now monthStart).is_active = true) :
    (circuit_breaker_check closed_trades current_capital active_suspension
      now monthStart).trigger_type.isSome = true := by
  revert h
  unfold circuit_breaker_check
  rcases active_suspension with _ | a
  · dsimp only
    split_ifs <;> simp
  · obtain ⟨su, tt, ro⟩ := a
    rcases su with _ | u <;> dsimp only <;> split_ifs <;> simp

/-- When the closed-trade history carries at least the trigger count of
consecutive losses, `check` reports an active breaker. -/
theorem check_active_of_losses (closed_trades : List ClosedTrade)
    (current_capital : ℚ) (active_suspension : Option ActiveSuspension)
    (now monthStart : ℤ)
    (h5 : CB_CONSECUTIVE_LOSS_TRIGGER ≤ count_consecutive_losses closed_trades) :
    (circuit_breaker_check closed_trades current_capital active_suspension
      now monthStart).is_active = true := by
  unfold circuit_breaker_check
  rcases active_suspension with _ | a
  · dsimp only
    split_ifs <;> simp_all
  · obtain ⟨su, tt, ro⟩ := a
    rcases su with _ | u <;> dsimp only <;> split_ifs <;> simp_all

/-- An active circuit breaker makes `validate` return the hard-block
result verbatim. -/
theorem validate_cb_hard_blocks (pearson : List (ℚ × ℚ) → ℚ)
    (db : String → Option (String × String)) (signal : Signal)
    (open_trades : List OpenTrade) (portfolio_config : PortfolioConfig)
    (stock_returns ihsg_returns : Option Series)
    (active_cb_event : Option ActiveSuspension)
    (closed_trades : List ClosedTrade) (now monthStart : ℤ)
    (hact : (circuit_breaker_check closed_trades portfolio_config.total_capital
      active_cb_event now monthStart).is_active = true) :
    validate pearson db signal open_trades portfolio_config stock_returns
      ihsg_returns active_cb_event closed_trades now monthStart =
    { passed := false
      verdict_override := some .suspended
      block_reason := some (.cbActive (circuit_breaker_check closed_trades
        portfolio_config.total_capital active_cb_event now monthStart).message)
      warnings := [.cbMessage (circuit_breaker_check closed_trades
        portfolio_config.total_capital active_cb_event now monthStart).message] } := by
  have hsome := cb_active_trigger_isSome closed_trades portfolio_config.total_capital
    active_cb_event now monthStart hact
  unfold validate
  rw [if_pos ⟨hact, hsome⟩]

/-- The break-on-first-non-loss walk counts exactly the longest
all-loss front segment. -/
theorem lossStreak_eq_takeWhile (l : List ClosedTrade) :
    lossStreak l = (l.takeWhile (fun x => decide (x.pnl_rupiah < 0))).length := by
  induction l with
  | nil => rfl
  | cons t ts ih =>
    by_cases h : t.pnl_rupiah < 0
    · simp [lossStreak, List.takeWhile_cons, h, ih]
    · simp [lossStreak, List.takeWhile_cons, h]

/-! ## Claim theorems -/

/-- C2: whenever the closed-trade history shows at least 5 consecutive
losing closed trades (most recent backwards by exit time), the very
next `RiskValidator.validate` call rejects with `passed = false` and
verdict `SUSPENDED`, no matter how favorable every other input is. -/
theorem validate_suspends_after_five_losses (pearson : List (ℚ × ℚ) → ℚ)
    (db : String → Option (String × String)) (signal : Signal)
    (open_trades : List OpenTrade) (portfolio_config : PortfolioConfig)
    (stock_returns ihsg_returns : Option Series)
    (active_cb_event : Option ActiveSuspension)
    (closed_trades : List ClosedTrade) (now monthStart : ℤ)
    (h5 : 5 ≤ count_consecutive_losses closed_trades) :
    (validate pearson db signal open_trades portfolio_config stock_returns
      ihsg_returns active_cb_event closed_trades now monthStart).passed = false ∧
    (validate pearson db signal open_trades portfolio_config stock_returns
      ihsg_returns active_cb_event closed_trades now monthStart).verdict_override =
      some .suspended := by
  have hact := check_active_of_losses closed_trades portfolio_config.total_capital
    active_cb_event now monthStart h5
  rw [validate_cb_hard_blocks pearson db signal open_trades portfolio_config
    stock_returns ihsg_returns active_cb_event closed_trades now monthStart hact]
  exact ⟨rfl, rfl⟩

/-- Witness for C2: five losing closed trades block an otherwise
perfectly healthy candidate with verdict SUSPENDED. -/
theorem validate_suspends_after_five_losses_witness :
    (validate (fun _ => 0) (fun _ => none) ⟨"AAAA.JK", 100, 90⟩ []
      ⟨1000000, 1/100, 8/100, 1/4, 3/10⟩ none none none
      [⟨some 1, -1⟩, ⟨some 2, -1⟩, ⟨some 3, -1⟩, ⟨some 4, -1⟩, ⟨some 5, -1⟩]
      100 0).passed = false ∧
    (validate (fun _ => 0) (fun _ => none) ⟨"AAAA.JK", 100, 90⟩ []
      ⟨1000000, 1/100, 8/100, 1/4, 3/10⟩ none none none
      [⟨some 1, -1⟩, ⟨some 2, -1⟩, ⟨some 3, -1⟩, ⟨some 4, -1⟩, ⟨some 5, -1⟩]
      100 0).verdict_override = some .suspended :=
  validate_suspends_after_five_losses (fun _ => 0) (fun _ => none)
    ⟨"AAAA.JK", 100, 90⟩ [] ⟨1000000, 1/100, 8/100, 1/4, 3/10⟩ none none none
    [⟨some 1, -1⟩, ⟨some 2, -1⟩, ⟨some 3, -1⟩, ⟨some 4, -1⟩, ⟨some 5, -1⟩]
    100 0 (by decide)

/-- C3: whenever `CircuitBreaker.check` reports `is_active = true` —
from a stored unexpired suspension or from a trigger newly firing this
call — `validate` returns exactly the hard-block result with verdict
`SUSPENDED`; the soft path that keeps validating with a reduced
`risk_per_trade` is never taken, because every active answer also
carries a trigger type. -/
theorem cb_active_always_hard_blocks (pearson : List (ℚ × ℚ) → ℚ)
    (db : String → Option (String × String)) (signal : Signal)
    (open_trades : List OpenTrade) (portfolio_config : PortfolioConfig)
    (stock_returns ihsg_returns : Option Series)
    (active_cb_event : Option ActiveSuspension)
    (closed_trades : List ClosedTrade) (now monthStart : ℤ)
    (hact : (circuit_breaker_check closed_trades portfolio_config.total_capital
      active_cb_event now monthStart).is_active = true) :
    validate pearson db signal open_trades portfolio_config stock_returns
      ihsg_returns active_cb_event closed_trades now monthStart =
    { passed := false
      verdict_override := some .suspended
      block_reason := some (.cbActive (circuit_breaker_check closed_trades
        portfolio_config.total_capital active_cb_event now monthStart).message)
      warnings := [.cbMessage (circuit_breaker_check closed_trades
        portfolio_config.total_capital active_cb_event now monthStart).message] } :=
  validate_cb_hard_blocks pearson db signal open_trades portfolio_config
    stock_returns ihsg_returns active_cb_event closed_trades now monthStart hact

/-- Witness for C3: a stored suspension that has not yet expired makes
`validate` return the hard-block result. -/
theorem cb_active_always_hard_blocks_witness :
    validate (fun _ => 0) (fun _ => none) ⟨"AAAA.JK", 100, 90⟩ []
      ⟨1000000, 1/100, 8/100, 1/4, 3/10⟩ none none
      (some ⟨some 200, .drawdown10pct, 1/400⟩) [] 100 0 =
    { passed := false
      verdict_override := some .suspended
      block_reason := some (.cbActive (.suspendedUntil 200))
      warnings := [.cbMessage (.suspendedUntil 200)] } :=
  cb_active_always_hard_blocks (fun _ => 0) (fun _ => none)
    ⟨"AAAA.JK", 100, 90⟩ [] ⟨1000000, 1/100, 8/100, 1/4, 3/10⟩ none none
    (some ⟨some 200, .drawdown10pct, 1/400⟩) [] 100 0 (by decide)

/-- C6: Scenario B — capital 1,000,000,000, risk 1%, entry 1000, stop
999: the naive size (10,000,000 shares, 1000% exposure) is capped at
25% exposure, giving shares 250,000, lots 2,500, and a warning naming
the applied 25% cap. -/
theorem scenarioB_caps_exposure :
    calculate_position_size 1000000000 (1/100) 1000 999 false =
      .ok { risk_amount := 10000000
            sl_distance := 1
            sl_distance_pct := 1/1000
            shares := 250000
            lots := 2500
            exposure_rupiah := 250000000
            exposure_pct := 1/4
            warnings := [.exposureLimit (1/4) (1/4)]
            max_exposure_limit := 1/4
            is_small_cap := false } := by
  unfold calculate_position_size pyInt pyFloorDiv
  norm_num [MAX_EXPOSURE_PER_STOCK]

/-- C7: the consecutive-loss count equals the length of the longest
all-loss front segment of the closed trades ordered by exit time
descending (a sorted permutation of exactly the trades that have an
exit date), and a trade without an exit date never affects the count
wherever it sits in the history. -/
theorem count_losses_walks_closed_trades (trades l1 l2 : List ClosedTrade)
    (t : ClosedTrade) (ht : t.exit_date = none) :
    count_consecutive_losses trades =
      ((List.insertionSort exitGE (trades.filter (·.exit_date.isSome))).takeWhile
        (fun x => decide (x.pnl_rupiah < 0))).length ∧
    List.Sorted exitGE
      (List.insertionSort exitGE (trades.filter (·.exit_date.isSome))) ∧
    (List.insertionSort exitGE (trades.filter (·.exit_date.isSome))).Perm
      (trades.filter (·.exit_date.isSome)) ∧
    count_consecutive_losses (l1 ++ t :: l2) = count_consecutive_losses (l1 ++ l2) := by
  refine ⟨lossStreak_eq_takeWhile _, List.sorted_insertionSort exitGE _,
    List.perm_insertionSort exitGE _, ?_⟩
  unfold count_consecutive_losses
  have : (l1 ++ t :: l2).filter (·.exit_date.isSome) =
      (l1 ++ l2).filter (·.exit_date.isSome) := by
    simp [List.filter_append, List.filter_cons, ht]
  rw [this]

/-- Witness for C7 at a concrete history containing an open trade. -/
theorem count_losses_walks_closed_trades_witness :
    count_consecutive_losses [⟨some 2, -5⟩, ⟨some 1, 3⟩] =
      ((List.insertionSort exitGE
        (([⟨some 2, -5⟩, ⟨some 1, 3⟩] : List ClosedTrade).filter
          (·.exit_date.isSome))).takeWhile
        (fun x => decide (x.pnl_rupiah < 0))).length ∧
    List.Sorted exitGE (List.insertionSort exitGE
      (([⟨some 2, -5⟩, ⟨some 1, 3⟩] : List ClosedTrade).filter (·.exit_date.isSome))) ∧
    (List.insertionSort exitGE
      (([⟨some 2, -5⟩, ⟨some 1, 3⟩] : List ClosedTrade).filter
        (·.exit_date.isSome))).Perm
      (([⟨some 2, -5⟩, ⟨some 1, 3⟩] : List ClosedTrade).filter (·.exit_date.isSome)) ∧
    count_consecutive_losses
        ([⟨some 2, -5⟩] ++ (⟨none, -7⟩ : ClosedTrade) :: [⟨some 1, 3⟩]) =
      count_consecutive_losses ([⟨some 2, -5⟩] ++ [⟨some 1, 3⟩]) :=
  count_losses_walks_closed_trades [⟨some 2, -5⟩, ⟨some 1, 3⟩]
    [⟨some 2, -5⟩] [⟨some 1, 3⟩] ⟨none, -7⟩ rfl

/-- C8: with fewer than `period` observations in either series, or
fewer than `period` aligned NaN-free rows, the correlation guard
returns correlation 0 and does not ask for a size reduction — for any
behavior of the underlying Pearson routine. -/
theorem correlation_neutral_without_data (pearson : List (ℚ × ℚ) → ℚ)
    (stock_returns ihsg_returns : Series) (period : ℕ)
    (h : stock_returns.length < period ∨ ihsg_returns.length < period ∨
      (alignSeries stock_returns ihsg_returns).length < period) :
    calculate_correlation pearson stock_returns ihsg_returns period = 0 ∧
    should_reduce_size_by_correlation
      (calculate_correlation pearson stock_returns ihsg_returns period) = false := by
  have hz : calculate_correlation pearson stock_returns ihsg_returns period = 0 := by
    unfold calculate_correlation
    rcases h with h | h | h
    · rw [if_pos (Or.inl h)]
    · rw [if_pos (Or.inr h)]
    · split
      · rfl
      · rw [if_pos h]
  refine ⟨hz, ?_⟩
  rw [hz]
  unfold should_reduce_size_by_correlation CORRELATION_THRESHOLD
  simp only [decide_eq_false_iff_not]
  norm_num

/-- Witness for C8: empty series with an adversarial constant-1 Pearson
routine still give correlation 0 and no reduction. -/
theorem correlation_neutral_without_data_witness :
    calculate_correlation (fun _ => 1) [] [] 90 = 0 ∧
    should_reduce_size_by_correlation
      (calculate_correlation (fun _ => 1) [] [] 90) = false :=
  correlation_neutral_without_data (fun _ => 1) [] [] 90 (by decide)

/-- C10: `calculate_portfolio_heat` is total in its capital argument:
a zero or negative capital yields `cash_reserve_pct = 0` rather than a
division by zero, and the status is still one of safe/warning/limit
for every list of open trades. -/
theorem heat_total_in_capital (open_trades : List OpenTrade)
    (total_capital max_heat_limit : ℚ) (h : total_capital ≤ 0) :
    (calculate_portfolio_heat open_trades total_capital
      max_heat_limit).cash_reserve_pct = 0 ∧
    ((calculate_portfolio_heat open_trades total_capital max_heat_limit).status =
        .safe ∨
     (calculate_portfolio_heat open_trades total_capital max_heat_limit).status =
        .warning ∨
     (calculate_portfolio_heat open_trades total_capital max_heat_limit).status =
        .limit) := by
  constructor
  · unfold calculate_portfolio_heat
    simp [not_lt.mpr h]
  · unfold calculate_portfolio_heat
    dsimp only
    split_ifs <;> simp

/-- Witness for C10 at zero capital and a non-empty position list. -/
theorem heat_total_in_capital_witness :
    (calculate_portfolio_heat [⟨"BBBB.JK", 1/100, 100, none, 50⟩] 0
      (8/100)).cash_reserve_pct = 0 ∧
    ((calculate_portfolio_heat [⟨"BBBB.JK", 1/100, 100, none, 50⟩] 0
        (8/100)).status = .safe ∨
     (calculate_portfolio_heat [⟨"BBBB.JK", 1/100, 100, none, 50⟩] 0
        (8/100)).status = .warning ∨
     (calculate_portfolio_heat [⟨"BBBB.JK", 1/100, 100, none, 50⟩] 0
        (8/100)).status = .limit) :=
  heat_total_in_capital [⟨"BBBB.JK", 1/100, 100, none, 50⟩] 0 (8/100) (by decide)

/-- The final stage of `validate`: whatever result the projected-heat
gate produces, if it passed then the heat did not shrink and the
reported exposure obeys the given cap. -/
theorem pass_record_spec (hb ar maxh cap expv : ℚ) (lots : ℤ)
    (warns : List Warning) (r : RiskValidationResult)
    (har : 0 ≤ ar) (hexp : expv ≤ cap)
    (hv : (if (project_heat_with_new_trade hb ar maxh).would_exceed = true
        then ({ passed := false
                verdict_override := some .wait
                block_reason := some (.heatProjected
                  (project_heat_with_new_trade hb ar maxh).projected_heat)
                heat_before := hb
                heat_after := (project_heat_with_new_trade hb ar maxh).projected_heat } :
                RiskValidationResult)
        else { passed := true
               lot_size := some lots
               exposure_pct := some expv
               heat_before := hb
               heat_after := (project_heat_with_new_trade hb ar maxh).projected_heat
               warnings := warns }) = r)
    (hp : r.passed = true) :
    r.heat_before ≤ r.heat_after ∧ ∀ e, r.exposure_pct = some e → e ≤ cap := by
  split at hv
  · rw [← hv] at hp; simp at hp
  · subst hv
    refine ⟨?_, ?_⟩
    · show hb ≤ (project_heat_with_new_trade hb ar maxh).projected_heat
      simp only [project_heat_with_new_trade]
      linarith
    · intro e he
      simp only [Option.some.injEq] at he
      exact he ▸ hexp

/-- Master lemma about passing `validate` results (with the schema
bounds `risk_per_trade ≥ 0` and `max_exposure_pct ≥ 0` of
`PortfolioConfig`): the projected heat never drops below the starting
heat, and the reported exposure respects the cap that was actually
applied. -/
theorem validate_passed_spec (pearson : List (ℚ × ℚ) → ℚ)
    (db : String → Option (String × String)) (signal : Signal)
    (open_trades : List OpenTrade) (portfolio_config : PortfolioConfig)
    (stock_returns ihsg_returns : Option Series)
    (active_cb_event : Option ActiveSuspension)
    (closed_trades : List ClosedTrade) (now monthStart : ℤ)
    (hr : 0 ≤ portfolio_config.risk_per_trade)
    (hx : 0 ≤ portfolio_config.max_exposure_pct) :
    ∀ r, validate pearson db signal open_trades portfolio_config stock_returns
        ihsg_returns active_cb_event closed_trades now monthStart = r →
      r.passed = true →
      r.heat_before ≤ r.heat_after ∧
      ∀ e, r.exposure_pct = some e →
        e ≤ appliedCap pearson db signal portfolio_config stock_returns ihsg_returns := by
  intro r hv hp
  by_cases hact : (circuit_breaker_check closed_trades portfolio_config.total_capital
      active_cb_event now monthStart).is_active = true
  · rw [validate_cb_hard_blocks pearson db signal open_trades portfolio_config
      stock_returns ihsg_returns active_cb_event closed_trades now monthStart hact] at hv
    rw [← hv] at hp
    simp at hp
  · simp only [validate] at hv
    rw [if_neg (fun hh => hact hh.1), if_neg hact] at hv
    split at hv
    · rw [← hv] at hp; simp at hp
    split at hv
    · rw [← hv] at hp; simp at hp
    split at hv
    · rw [← hv] at hp; simp at hp
    rename_i hheat hsec x sizing heq
    obtain ⟨hcap, hpe, hpsl, hse, hsh_eq, hsh_nn, hexp_eq, hexp_le, hlim⟩ :=
      sizing_ok_spec hr heq
    have hse' : (0:ℚ) < signal.entry_price - signal.sl_price := by linarith
    have hsizer : sizerCap db signal = sizing.max_exposure_limit := by
      rw [hlim]
      by_cases hP : (get_sector_info signal.symbol db).2 = "small" <;>
        simp [sizerCap, hP]
    have harS : (0:ℚ) ≤ (sizing.shares : ℚ) * (signal.entry_price - signal.sl_price) /
        portfolio_config.total_capital :=
      div_nonneg (mul_nonneg (by exact_mod_cast hsh_nn) (le_of_lt hse'))
        (le_of_lt hcap)
    rcases stock_returns with _ | sr
    · -- no stock return series: guard cannot trigger
      dsimp only at hv
      refine pass_record_spec _ _ _ _ _ _ _ r harS ?_ hv hp
      rw [show appliedCap pearson db signal portfolio_config none ihsg_returns =
        sizerCap db signal from rfl, hsizer]
      exact hexp_le
    rcases ihsg_returns with _ | ir
    · -- no benchmark return series: guard cannot trigger
      dsimp only at hv
      refine pass_record_spec _ _ _ _ _ _ _ r harS ?_ hv hp
      rw [show appliedCap pearson db signal portfolio_config (some sr) none =
        sizerCap db signal from rfl, hsizer]
      exact hexp_le
    · -- both series present
      dsimp only at hv
      by_cases hred : should_reduce_size_by_correlation
          (calculate_correlation pearson sr ir 90) = true
      · -- correlation guard triggered
        have hcapEq : appliedCap pearson db signal portfolio_config
            (some sr) (some ir) = portfolio_config.max_exposure_pct * (1/2) := by
          simp [appliedCap, corrTriggered, hred]
        rw [if_pos hred] at hv
        by_cases hbite : portfolio_config.max_exposure_pct * (1/2) <
            sizing.exposure_pct
        · -- exposure above the halved cap: shares shrunk again
          rw [if_pos hbite] at hv
          have hl2 : (0:ℚ) ≤ portfolio_config.max_exposure_pct * (1/2) :=
            mul_nonneg hx (by norm_num)
          have hspec := capShares_spec hcap hpe hl2
          refine pass_record_spec _ _ _ _ _ _ _ r ?_ ?_ hv hp
          · exact div_nonneg (mul_nonneg (by exact_mod_cast hspec.1)
              (le_of_lt hse')) (le_of_lt hcap)
          · rw [hcapEq]; exact hspec.2
        · -- exposure already within the halved cap
          rw [if_neg hbite] at hv
          rw [not_lt] at hbite
          refine pass_record_spec _ _ _ _ _ _ _ r harS ?_ hv hp
          rw [hcapEq]; exact hbite
      · -- correlation guard not triggered
        have hcapEq : appliedCap pearson db signal portfolio_config
            (some sr) (some ir) = sizerCap db signal := by
          simp [appliedCap, corrTriggered, hred]
        rw [if_neg hred] at hv
        refine pass_record_spec _ _ _ _ _ _ _ r harS ?_ hv hp
        rw [hcapEq, hsizer]; exact hexp_le

/-- Evaluation: a healthy candidate (capital 1,000,000, risk 1%, entry
100, stop 90, no open or closed trades) passes with 10 lots. -/
theorem validate_eval_pass_basic :
    validate (fun _ => 0) (fun _ => none) ⟨"AAAA.JK", 100, 90⟩ []
      ⟨1000000, 1/100, 8/100, 1/4, 3/10⟩ none none none [] 100 0 =
    { passed := true, lot_size := some 10, exposure_pct := some (1/10),
      heat_before := 0, heat_after := 1/100, warnings := [] } := by
  norm_num [validate, circuit_breaker_check, calculate_monthly_drawdown,
    count_consecutive_losses, lossStreak, calculate_portfolio_heat, tradeQty,
    get_sector_info, check_sector_limit, calculate_position_size,
    project_heat_with_new_trade, pyInt, pyFloorDiv,
    MIN_CASH_RESERVE, HEAT_WARNING_LEVEL, CB_DRAWDOWN_TRIGGER,
    CB_CONSECUTIVE_LOSS_TRIGGER, MAX_SMALL_CAP_EXPOSURE,
    MAX_EXPOSURE_PER_STOCK, MAX_STOCKS_PER_SECTOR]
  simp

/-- Evaluation: a candidate whose risk budget is below one lot
(capital 100,000, risk 1%, entry 1000, stop 900 — raw shares 10) sails
through every gate and comes back `passed = true` with `lot_size = 0`. -/
theorem validate_eval_zero_lot :
    validate (fun _ => 0) (fun _ => none) ⟨"AAAA.JK", 1000, 900⟩ []
      ⟨100000, 1/100, 8/100, 1/4, 3/10⟩ none none none [] 100 0 =
    { passed := true, lot_size := some 0, exposure_pct := some 0,
      heat_before := 0, heat_after := 0, warnings := [] } := by
  norm_num [validate, circuit_breaker_check, calculate_monthly_drawdown,
    count_consecutive_losses, lossStreak, calculate_portfolio_heat, tradeQty,
    get_sector_info, check_sector_limit, calculate_position_size,
    project_heat_with_new_trade, pyInt, pyFloorDiv,
    MIN_CASH_RESERVE, HEAT_WARNING_LEVEL, CB_DRAWDOWN_TRIGGER,
    CB_CONSECUTIVE_LOSS_TRIGGER, MAX_SMALL_CAP_EXPOSURE,
    MAX_EXPOSURE_PER_STOCK, MAX_STOCKS_PER_SECTOR]
  simp

/-- Evaluation: with the portfolio heat already at the 8% limit, the
candidate is rejected on the heat gate; the result reports
`heat_before = 8%` but leaves `heat_after` at its default `0`. -/
theorem validate_eval_heat_limit :
    validate (fun _ => 0) (fun _ => none) ⟨"AAAA.JK", 100, 90⟩
      [⟨"BBBB.JK", 8/100, 100, none, 50⟩]
      ⟨1000000, 1/100, 8/100, 1/4, 3/10⟩ none none none [] 100 0 =
    { passed := false, verdict_override := some .wait,
      block_reason := some (.heatLimit (8/100)),
      heat_before := 8/100, heat_after := 0 } := by
  norm_num [validate, circuit_breaker_check, calculate_monthly_drawdown,
    count_consecutive_losses, lossStreak, calculate_portfolio_heat, tradeQty,
    get_sector_info, check_sector_limit, calculate_position_size,
    project_heat_with_new_trade, pyInt, pyFloorDiv,
    MIN_CASH_RESERVE, HEAT_WARNING_LEVEL, CB_DRAWDOWN_TRIGGER,
    CB_CONSECUTIVE_LOSS_TRIGGER, MAX_SMALL_CAP_EXPOSURE,
    MAX_EXPOSURE_PER_STOCK, MAX_STOCKS_PER_SECTOR]

/-- C1 counterexample: the claimed invariant `heat_after ≥ heat_before`
fails for a rejected result — the heat-limit rejection above reports
`heat_after = 0 < 8% = heat_before`. -/
theorem heat_invariant_fails_on_rejection :
    (validate (fun _ => 0) (fun _ => none) ⟨"AAAA.JK", 100, 90⟩
      [⟨"BBBB.JK", 8/100, 100, none, 50⟩]
      ⟨1000000, 1/100, 8/100, 1/4, 3/10⟩ none none none [] 100 0).heat_after <
    (validate (fun _ => 0) (fun _ => none) ⟨"AAAA.JK", 100, 90⟩
      [⟨"BBBB.JK", 8/100, 100, none, 50⟩]
      ⟨1000000, 1/100, 8/100, 1/4, 3/10⟩ none none none [] 100 0).heat_before := by
  rw [validate_eval_heat_limit]
  norm_num

/-- C1 (amended): for every result `validate` returns with
`passed = true` — under the `PortfolioConfig` schema bounds
`risk_per_trade ≥ 0` and `max_exposure_pct ≥ 0` — the reported
`heat_after` is at least `heat_before`.  (Early rejections leave
`heat_after` at its default `0`, which can be below `heat_before`.) -/
theorem validate_passed_heat_monotone (pearson : List (ℚ × ℚ) → ℚ)
    (db : String → Option (String × String)) (signal : Signal)
    (open_trades : List OpenTrade) (portfolio_config : PortfolioConfig)
    (stock_returns ihsg_returns : Option Series)
    (active_cb_event : Option ActiveSuspension)
    (closed_trades : List ClosedTrade) (now monthStart : ℤ)
    (hr : 0 ≤ portfolio_config.risk_per_trade)
    (hx : 0 ≤ portfolio_config.max_exposure_pct)
    (hp : (validate pearson db signal open_trades portfolio_config stock_returns
      ihsg_returns active_cb_event closed_trades now monthStart).passed = true) :
    (validate pearson db signal open_trades portfolio_config stock_returns
      ihsg_returns active_cb_event closed_trades now monthStart).heat_before ≤
    (validate pearson db signal open_trades portfolio_config stock_returns
      ihsg_returns active_cb_event closed_trades now monthStart).heat_after :=
  (validate_passed_spec pearson db signal open_trades portfolio_config
    stock_returns ihsg_returns active_cb_event closed_trades now monthStart
    hr hx _ rfl hp).1

/-- Witness for the amended C1 at a concrete passing input. -/
theorem validate_passed_heat_monotone_witness :
    (validate (fun _ => 0) (fun _ => none) ⟨"AAAA.JK", 100, 90⟩ []
      ⟨1000000, 1/100, 8/100, 1/4, 3/10⟩ none none none [] 100 0).heat_before ≤
    (validate (fun _ => 0) (fun _ => none) ⟨"AAAA.JK", 100, 90⟩ []
      ⟨1000000, 1/100, 8/100, 1/4, 3/10⟩ none none none [] 100 0).heat_after :=
  validate_passed_heat_monotone (fun _ => 0) (fun _ => none) ⟨"AAAA.JK", 100, 90⟩
    [] ⟨1000000, 1/100, 8/100, 1/4, 3/10⟩ none none none [] 100 0
    (by norm_num) (by norm_num) (by rw [validate_eval_pass_basic])

/-- C5: every passing result's exposure obeys the cap that was actually
applied — half the configured max exposure when the correlation guard
triggered, otherwise the 15% small-cap or 25% normal sizer cap
(`PortfolioConfig` schema bounds assumed). -/
theorem validate_exposure_le_applied_cap (pearson : List (ℚ × ℚ) → ℚ)
    (db : String → Option (String × String)) (signal : Signal)
    (open_trades : List OpenTrade) (portfolio_config : PortfolioConfig)
    (stock_returns ihsg_returns : Option Series)
    (active_cb_event : Option ActiveSuspension)
    (closed_trades : List ClosedTrade) (now monthStart : ℤ)
    (hr : 0 ≤ portfolio_config.risk_per_trade)
    (hx : 0 ≤ portfolio_config.max_exposure_pct)
    (hp : (validate pearson db signal open_trades portfolio_config stock_returns
      ihsg_returns active_cb_event closed_trades now monthStart).passed = true) :
    ∀ e, (validate pearson db signal open_trades portfolio_config stock_returns
        ihsg_returns active_cb_event closed_trades now monthStart).exposure_pct =
        some e →
      e ≤ appliedCap pearson db signal portfolio_config stock_returns ihsg_returns :=
  (validate_passed_spec pearson db signal open_trades portfolio_config
    stock_returns ihsg_returns active_cb_event closed_trades now monthStart
    hr hx _ rfl hp).2

/-- Witness for C5 at a concrete passing input (10% exposure against
the applied 15% small-cap cap). -/
theorem validate_exposure_le_applied_cap_witness :
    (1:ℚ)/10 ≤ appliedCap (fun _ => 0) (fun _ => none) ⟨"AAAA.JK", 100, 90⟩
      ⟨1000000, 1/100, 8/100, 1/4, 3/10⟩ none none :=
  validate_exposure_le_applied_cap (fun _ => 0) (fun _ => none)
    ⟨"AAAA.JK", 100, 90⟩ [] ⟨1000000, 1/100, 8/100, 1/4, 3/10⟩ none none none []
    100 0 (by norm_num) (by norm_num) (by rw [validate_eval_pass_basic])
    (1/10) (by rw [validate_eval_pass_basic])

/-- C4 counterexample: a sizing of 0 shares (risk budget below one lot)
is NOT rejected — `validate` returns `passed = true` with
`lot_size = 0`; no "below one lot" rejection exists in the code. -/
theorem zero_lot_passes_counterexample :
    (validate (fun _ => 0) (fun _ => none) ⟨"AAAA.JK", 1000, 900⟩ []
      ⟨100000, 1/100, 8/100, 1/4, 3/10⟩ none none none [] 100 0).passed = true ∧
    (validate (fun _ => 0) (fun _ => none) ⟨"AAAA.JK", 1000, 900⟩ []
      ⟨100000, 1/100, 8/100, 1/4, 3/10⟩ none none none [] 100 0).lot_size =
      some 0 := by
  rw [validate_eval_zero_lot]
  exact ⟨rfl, rfl⟩

/-- C4 (amended): in every successful sizing result, `lots` is a
non-negative integer and `shares = lots * 100`.  (The rejection half of
the original claim fails: a zero-share sizing passes validation, see
the counterexample.) -/
theorem sizing_lots_shape (capital risk_pct entry_price sl_price : ℚ)
    (is_small_cap : Bool) (s : SizingResult) (hr : 0 ≤ risk_pct)
    (h : calculate_position_size capital risk_pct entry_price sl_price
      is_small_cap = .ok s) :
    0 ≤ s.lots ∧ s.shares = s.lots * 100 := by
  obtain ⟨-, -, -, -, hsh_eq, hsh_nn, -, -, -⟩ := sizing_ok_spec hr h
  refine ⟨?_, hsh_eq⟩
  by_contra hneg
  rw [not_le] at hneg
  have : s.lots * 100 < 0 := mul_neg_of_neg_of_pos hneg (by norm_num)
  rw [← hsh_eq] at this
  exact absurd hsh_nn (not_le.mpr this)

/-- Witness for the amended C4 at a concrete sizing. -/
theorem sizing_lots_shape_witness :
    0 ≤ ({ risk_amount := 10000, sl_distance := 10, sl_distance_pct := 1/10,
           shares := 1000, lots := 10, exposure_rupiah := 100000,
           exposure_pct := 1/10, warnings := [], max_exposure_limit := 1/4,
           is_small_cap := false } : SizingResult).lots ∧
    ({ risk_amount := 10000, sl_distance := 10, sl_distance_pct := 1/10,
       shares := 1000, lots := 10, exposure_rupiah := 100000,
       exposure_pct := 1/10, warnings := [], max_exposure_limit := 1/4,
       is_small_cap := false } : SizingResult).shares =
    ({ risk_amount := 10000, sl_distance := 10, sl_distance_pct := 1/10,
       shares := 1000, lots := 10, exposure_rupiah := 100000,
       exposure_pct := 1/10, warnings := [], max_exposure_limit := 1/4,
       is_small_cap := false } : SizingResult).lots * 100 :=
  sizing_lots_shape 1000000 (1/100) 100 90 false
    { risk_amount := 10000, sl_distance := 10, sl_distance_pct := 1/10,
      shares := 1000, lots := 10, exposure_rupiah := 100000,
      exposure_pct := 1/10, warnings := [], max_exposure_limit := 1/4,
      is_small_cap := false } (by norm_num)
    (by unfold calculate_position_size pyInt pyFloorDiv
        norm_num [MAX_EXPOSURE_PER_STOCK])

/-- C9: a malformed candidate (stop ≥ entry, non-positive price or
non-positive capital) makes the sizer return an input-error value, and
— whenever the earlier gates let the call reach the sizer — `validate`
turns it into a rejection: `passed = false`, verdict `WAIT`, with the
sizing error as non-empty block reason.  (The model is total: no
exception is possible.) -/
theorem invalid_candidate_rejected_as_wait (pearson : List (ℚ × ℚ) → ℚ)
    (db : String → Option (String × String)) (signal : Signal)
    (open_trades : List OpenTrade) (portfolio_config : PortfolioConfig)
    (stock_returns ihsg_returns : Option Series)
    (active_cb_event : Option ActiveSuspension)
    (closed_trades : List ClosedTrade) (now monthStart : ℤ)
    (hbad : portfolio_config.total_capital ≤ 0 ∨ signal.entry_price ≤ 0 ∨
      signal.sl_price ≤ 0 ∨ signal.entry_price ≤ signal.sl_price)
    (hcb : (circuit_breaker_check closed_trades portfolio_config.total_capital
      active_cb_event now monthStart).is_active = false)
    (hheat : (calculate_portfolio_heat open_trades portfolio_config.total_capital
      portfolio_config.max_heat).status ≠ .limit)
    (hsec : (check_sector_limit signal.symbol
      (get_sector_info signal.symbol db).1 open_trades db).allowed = true) :
    ∃ err, calculate_position_size portfolio_config.total_capital
        portfolio_config.risk_per_trade signal.entry_price signal.sl_price
        (decide ((get_sector_info signal.symbol db).2 = "small")) = .error err ∧
      (validate pearson db signal open_trades portfolio_config stock_returns
        ihsg_returns active_cb_event closed_trades now monthStart).passed = false ∧
      (validate pearson db signal open_trades portfolio_config stock_returns
        ihsg_returns active_cb_event closed_trades now
        monthStart).verdict_override = some .wait ∧
      (validate pearson db signal open_trades portfolio_config stock_returns
        ihsg_returns active_cb_event closed_trades now monthStart).block_reason =
        some (.sizingError err) := by
  have herr : ∃ err, calculate_position_size portfolio_config.total_capital
      portfolio_config.risk_per_trade signal.entry_price signal.sl_price
      (decide ((get_sector_info signal.symbol db).2 = "small")) = .error err := by
    unfold calculate_position_size
    split_ifs with h1 h2 h3 <;>
      first
        | exact ⟨_, rfl⟩
        | (exfalso
           rcases hbad with h | h | h | h
           · exact h1 h
           · exact h2 (Or.inl h)
           · exact h2 (Or.inr h)
           · exact h3 h)
  obtain ⟨err, herr⟩ := herr
  have hA : ¬((circuit_breaker_check closed_trades portfolio_config.total_capital
      active_cb_event now monthStart).is_active = true ∧
      (circuit_breaker_check closed_trades portfolio_config.total_capital
      active_cb_event now monthStart).trigger_type.isSome = true) := by
    rw [hcb]; rintro ⟨h, -⟩; cases h
  have hB : ¬(circuit_breaker_check closed_trades portfolio_config.total_capital
      active_cb_event now monthStart).is_active = true := by
    rw [hcb]; intro h; cases h
  have hveq : validate pearson db signal open_trades portfolio_config
      stock_returns ihsg_returns active_cb_event closed_trades now monthStart =
      { passed := false, verdict_override := some .wait,
        block_reason := some (.sizingError err),
        heat_before := (calculate_portfolio_heat open_trades
          portfolio_config.total_capital portfolio_config.max_heat).current_heat } := by
    simp only [validate]
    rw [if_neg hA, if_neg hB, if_neg hheat, if_neg (not_not_intro hsec)]
    dsimp only
    rw [herr]
  rw [hveq]
  exact ⟨err, herr, rfl, rfl, rfl⟩

/-- Witness for C9: stop 110 above entry 100 is rejected with WAIT and
a sizing-error block reason. -/
theorem invalid_candidate_rejected_as_wait_witness :
    ∃ err, calculate_position_size 1000000 (1/100) 100 110
        (decide ((get_sector_info "AAAA.JK" (fun _ => none)).2 = "small")) =
        .error err ∧
      (validate (fun _ => 0) (fun _ => none) ⟨"AAAA.JK", 100, 110⟩ []
        ⟨1000000, 1/100, 8/100, 1/4, 3/10⟩ none none none [] 100 0).passed =
        false ∧
      (validate (fun _ => 0) (fun _ => none) ⟨"AAAA.JK", 100, 110⟩ []
        ⟨1000000, 1/100, 8/100, 1/4, 3/10⟩ none none none [] 100
        0).verdict_override = some .wait ∧
      (validate (fun _ => 0) (fun _ => none) ⟨"AAAA.JK", 100, 110⟩ []
        ⟨1000000, 1/100, 8/100, 1/4, 3/10⟩ none none none [] 100
        0).block_reason = some (.sizingError err) :=
  invalid_candidate_rejected_as_wait (fun _ => 0) (fun _ => none)
    ⟨"AAAA.JK", 100, 110⟩ [] ⟨1000000, 1/100, 8/100, 1/4, 3/10⟩ none none none
    [] 100 0
    (Or.inr (Or.inr (Or.inr (by norm_num))))
    (by norm_num [circuit_breaker_check, calculate_monthly_drawdown,
      count_consecutive_losses, lossStreak, CB_DRAWDOWN_TRIGGER,
      CB_CONSECUTIVE_LOSS_TRIGGER])
    (by norm_num [calculate_portfolio_heat, HEAT_WARNING_LEVEL]
        simp)
    (by norm_num [check_sector_limit])

end Caktyk
